import Mathlib

/-!
Shallow embedding of `ebpflow.py` (deeso/ebpflow): the ctypes record schema
(`task_info`, `net_info4`, `kernel_data`), the formatting methods, the
statistics aggregator (`AtomicInteger`, `Events_Statics`), the perf-buffer
callback `print_ipv4_event`, and the probe-text substitution in `readebpf`.

Machine integers are modelled as `Nat` holding the value the ctypes field
reads from memory on a little-endian machine; `etype` (a C `int`) is `Int`.
Python byte strings of the record are modelled as Lean `String`
(one `Char` per byte). Fallible operations (a `dict` lookup that can raise
`KeyError`) return `Option`. The module-level globals `NO_TRUNC` and
`estats` are passed as explicit parameters / state.
-/

/-- TASK_COMM_LEN from the source: capacity of the command-name field. -/
def TASK_COMM_LEN : Nat := 16

/-- CGROUP_NAME from the source: capacity of the cgroup field. -/
def CGROUP_NAME : Nat := 64

/-- ctypes structure `task_info`: pid/uid/gid and the two bounded byte strings
(`cgroup`, `task`), as the values ctypes presents to the Python code. -/
structure task_info where
  pid : Nat
  uid : Nat
  gid : Nat
  cgroup : String
  task : String
deriving Repr, DecidableEq

/-- ctypes structure `net_info4`: ports and IPv4 addresses as the raw
little-endian field values (no byte-order conversion happens at decode). -/
structure net_info4 where
  loc_port : Nat
  dst_port : Nat
  saddr : Nat
  daddr : Nat
deriving Repr, DecidableEq

/-- ctypes structure `kernel_data`: one event record as decoded. -/
structure kernel_data where
  absolute_time : Nat
  ktime : Nat
  task : task_info
  ptask : task_info
  etype : Int
  net4 : net_info4
deriving Repr, DecidableEq

/-- The `_etype_table` dict: 601 ↦ "TCP/ACC", 602 ↦ "TCP/CONN"; a missing key
raises `KeyError`, modelled as `none`. -/
def etype_table (x : Int) : Option String :=
  if x = 601 then some "TCP/ACC" else if x = 602 then some "TCP/CONN" else none

/-- Method `etype2str` of `kernel_data`: `self._etype_table[self.etype]`. -/
def kernel_data.etype2str (e : kernel_data) : Option String :=
  etype_table e.etype

/-- Python slice `s[:n]`: the first `n` characters (bytes) of the string. -/
def strTake (s : String) (n : Nat) : String :=
  ⟨s.data.take n⟩

/-- The expression `inet_ntop(AF_INET, pack("I", n))` from the source:
`pack("I", n)` lays out `n` as four little-endian bytes and `inet_ntop`
prints those bytes, in order, as a dotted quad. -/
def inet_ntop_pack (n : Nat) : String :=
  toString (n % 256) ++ "." ++ toString (n / 256 % 256) ++ "." ++
    toString (n / 65536 % 256) ++ "." ++ toString (n / 16777216 % 256)

/-- The `_ltask` template applied in `__str__`:
`'[ktime: %s][gid: %s][uid: %s][pid: %s][%s]' % (ktime, task.gid, task.uid, task.pid, task.task)`. -/
def kernel_data.taskLine (e : kernel_data) : String :=
  "[ktime: " ++ toString e.ktime ++ "][gid: " ++ toString e.task.gid ++
    "][uid: " ++ toString e.task.uid ++ "][pid: " ++ toString e.task.pid ++
    "][" ++ e.task.task ++ "]"

/-- The `_lparent` template applied in `__str__`:
`'parent: [gid: %s][uid: %s][pid: %s][%s]' % (ptask.gid, ptask.uid, ptask.pid, ptask.task)`. -/
def kernel_data.parentLine (e : kernel_data) : String :=
  "parent: [gid: " ++ toString e.ptask.gid ++ "][uid: " ++ toString e.ptask.uid ++
    "][pid: " ++ toString e.ptask.pid ++ "][" ++ e.ptask.task ++ "]"

/-- The `_lnetinfo` template applied in `__str__`: the event-kind label comes
from `etype2str` (which can raise, hence `Option`); addresses go through
`inet_ntop(AF_INET, pack("I", ·))`; the ports are printed as the raw field
values (`self.net4.loc_port`, `self.net4.dst_port` — no `ntohs`). -/
def kernel_data.netLineWith (e : kernel_data) (lbl : String) : String :=
  "netinfo: [" ++ lbl ++ "][IPv4][" ++ inet_ntop_pack e.net4.saddr ++ ":" ++
    toString e.net4.loc_port ++ " <-> " ++ inet_ntop_pack e.net4.daddr ++ ":" ++
    toString e.net4.dst_port ++ "]"

/-- The netinfo line of `__str__`, `none` when `etype2str` raises. -/
def kernel_data.netLine (e : kernel_data) : Option String :=
  (etype_table e.etype).map e.netLineWith

/-- The `_lcgroup` template applied in `__str__`:
`dockerid = self.task.cgroup if NO_TRUNC else self.task.cgroup[:12]`. -/
def kernel_data.containerLine (e : kernel_data) (no_trunc : Bool) : String :=
  "container: [dockerid: " ++
    (if no_trunc then e.task.cgroup else strTake e.task.cgroup 12) ++ "]"

/-- The list `lines` built by `__str__`, in order: task line, parent line,
netinfo line (building it raises for an unknown etype, hence `Option`), then
the container line, appended only when `self.task.cgroup != '/'`. -/
def kernel_data.lineList (e : kernel_data) (no_trunc : Bool) : Option (List String) :=
  e.netLine.map (fun n =>
    let lines := [e.taskLine, e.parentLine, n]
    if e.task.cgroup ≠ "/" then lines ++ [e.containerLine no_trunc] else lines)

/-- Method `__str__` of `kernel_data`: `'\n|__'.join(lines)`. -/
def kernel_data.toStr (e : kernel_data) (no_trunc : Bool) : Option String :=
  (e.lineList no_trunc).map (String.intercalate "\n|__")

/-- Class `AtomicInteger`: the stored value (the lock only serialises
concurrent access and has no sequential behaviour to model). -/
structure AtomicInteger where
  m_value : Nat
deriving Repr, DecidableEq

/-- Method `__add__` of `AtomicInteger`: locked in-place addition. -/
def AtomicInteger.addInt (a : AtomicInteger) (v : Nat) : AtomicInteger :=
  ⟨a.m_value + v⟩

/-- Method `get` of `AtomicInteger`: locked read of the value. -/
def AtomicInteger.get (a : AtomicInteger) : Nat :=
  a.m_value

/-- Class `Events_Statics`: the two counters, both starting at 0. -/
structure Events_Statics where
  connect_counter : AtomicInteger
  accept_counter : AtomicInteger
deriving Repr, DecidableEq

/-- Constructor of `Events_Statics`: both counters start at `AtomicInteger(0)`. -/
def Events_Statics.mkInit : Events_Statics :=
  ⟨⟨0⟩, ⟨0⟩⟩

/-- Method `add` of `Events_Statics`: `etype == 601` bumps the accept
counter, every other etype bumps the connect counter. -/
def Events_Statics.add (s : Events_Statics) (e : kernel_data) : Events_Statics :=
  if e.etype = 601 then { s with accept_counter := s.accept_counter.addInt 1 }
  else { s with connect_counter := s.connect_counter.addInt 1 }

/-- Method `__str__` of `Events_Statics`: the source binds `conn` to
`accept_counter.get()` and `acpt` to `connect_counter.get()` (the names are
swapped) and renders `line % (conn + acpt, conn, acpt)`. -/
def Events_Statics.toStr (s : Events_Statics) : String :=
  let conn := s.accept_counter.get
  let acpt := s.connect_counter.get
  "===== Events count =====\ntot: " ++ toString (conn + acpt) ++
    " \naccpt: " ++ toString conn ++ " \nconn: " ++ toString acpt

/-- Total size in bytes of `kernel_data` under ctypes native layout
(8 + 8 + 92 + 92 + 4 + 12, every field naturally aligned). -/
def sizeof_kernel_data : Nat := 216

/-- Little-endian read of `len` bytes at offset `off`; bytes past the end of
the buffer read as 0 (the cast performs no bounds check). -/
def readLE (bs : List Nat) (off len : Nat) : Nat :=
  (List.range len).foldr (fun i acc => acc * 256 + bs.getD (off + i) 0) 0

/-- ctypes `c_char * cap` field access: the bytes at the field, cut at the
first NUL (or at capacity). -/
def readCStr (bs : List Nat) (off cap : Nat) : List Nat :=
  ((List.range cap).map (fun i => bs.getD (off + i) 0)).takeWhile (fun b => b ≠ 0)

/-- Bytes to the Python string the ctypes field presents. -/
def bytesToString (l : List Nat) : String :=
  ⟨l.map Char.ofNat⟩

/-- ctypes `c_int` (32-bit signed, little-endian) read. -/
def readInt32 (bs : List Nat) (off : Nat) : Int :=
  let u := readLE bs off 4
  if u < 2147483648 then (u : Int) else (u : Int) - 4294967296

/-- The reinterpretation performed by
`ct.cast(data, ct.POINTER(kernel_data)).contents`: fields are read at the
fixed ctypes offsets of the 216-byte layout; no length validation occurs. -/
def cast_kernel_data (bs : List Nat) : kernel_data where
  absolute_time := readLE bs 0 8
  ktime := readLE bs 8 8
  task :=
    { pid := readLE bs 16 4, uid := readLE bs 20 4, gid := readLE bs 24 4
      cgroup := bytesToString (readCStr bs 28 CGROUP_NAME)
      task := bytesToString (readCStr bs 92 TASK_COMM_LEN) }
  ptask :=
    { pid := readLE bs 108 4, uid := readLE bs 112 4, gid := readLE bs 116 4
      cgroup := bytesToString (readCStr bs 120 CGROUP_NAME)
      task := bytesToString (readCStr bs 184 TASK_COMM_LEN) }
  etype := readInt32 bs 200
  net4 :=
    { loc_port := readLE bs 204 2, dst_port := readLE bs 206 2
      saddr := readLE bs 208 4, daddr := readLE bs 212 4 }

/-- The perf-buffer callback `print_ipv4_event(cpu, data, size)`: it casts
`data` (the `size` argument is never consulted), updates the global `estats`,
then prints `str(event)`. State is passed explicitly; the printed text is
`none` when `__str__` raises (unknown etype), which happens after the
counter update. -/
def print_ipv4_event (no_trunc : Bool) (s : Events_Statics) (cpu : Nat)
    (data : List Nat) (size : Nat) : Events_Statics × Option String :=
  let event := cast_kernel_data data
  (s.add event, event.toStr no_trunc)

/-- The filter text built by `readebpf`: the empty string when no task is
given, otherwise the generated equality-comparison snippet naming the task. -/
def fltrOf : Option String → String
  | none => ""
  | some t => "if(ebpf_strcmp(event_data.task.task, \"" ++ t ++ "\") == 0)"

/-- Python `str.replace(pat, repl)` on byte/char lists: replaces every
non-overlapping occurrence of `pat`, scanning left to right. -/
def replaceList (pat repl : List Char) : List Char → List Char
  | [] => []
  | c :: rest =>
    if h : pat ≠ [] ∧ pat.isPrefixOf (c :: rest) then
      repl ++ replaceList pat repl ((c :: rest).drop pat.length)
    else
      c :: replaceList pat repl rest
termination_by s => s.length
decreasing_by
  · simp only [List.length_drop, List.length_cons]
    have hp : 0 < pat.length := List.length_pos.mpr h.1
    omega
  · simp

/-- The substitution step of `readebpf`:
`ebpftxt.replace('FLTR_TASK', fltr)` with `fltr` as built from the optional
task name. -/
def readebpfSubst (ebpftxt : String) (task : Option String) : String :=
  ⟨replaceList "FLTR_TASK".data (fltrOf task).data ebpftxt.data⟩

/-- A zeroed event with the given etype: handy concrete input. -/
def zeroEvent (t : Int) : kernel_data :=
  { absolute_time := 0, ktime := 0
    task := { pid := 0, uid := 0, gid := 0, cgroup := "/", task := "sh" }
    ptask := { pid := 0, uid := 0, gid := 0, cgroup := "/", task := "sh" }
    etype := t
    net4 := { loc_port := 0, dst_port := 0, saddr := 0, daddr := 0 } }

/-- An event whose cgroup is a 16-byte docker-style identifier. -/
def dockerEvent (t : Int) : kernel_data :=
  { zeroEvent t with task := { (zeroEvent t).task with cgroup := "abcdef0123456789" } }

/-- A 216-byte raw record: etype bytes encode 601, the local-port bytes are
the network-byte-order encoding of port 8080 (0x1f, 0x90) and the
local-address bytes are 192.168.1.10. -/
def b8080 : List Nat :=
  List.replicate 200 0 ++ [89, 2, 0, 0, 31, 144, 0, 0, 192, 168, 1, 10, 0, 0, 0, 0]

/-- A 216-byte raw record whose etype bytes encode 600, outside {601, 602}. -/
def b600 : List Nat :=
  List.replicate 200 0 ++ [88, 2, 0, 0] ++ List.replicate 12 0

lemma add_get_accept (s : Events_Statics) (e : kernel_data) :
    (s.add e).accept_counter.get =
      s.accept_counter.get + if e.etype = 601 then 1 else 0 := by
  by_cases h : e.etype = 601 <;>
    simp [Events_Statics.add, AtomicInteger.addInt, AtomicInteger.get, h]

lemma add_get_connect (s : Events_Statics) (e : kernel_data) :
    (s.add e).connect_counter.get =
      s.connect_counter.get + if e.etype = 601 then 0 else 1 := by
  by_cases h : e.etype = 601 <;>
    simp [Events_Statics.add, AtomicInteger.addInt, AtomicInteger.get, h]

lemma foldl_add_accept (l : List kernel_data) (s : Events_Statics) :
    (l.foldl Events_Statics.add s).accept_counter.get =
      s.accept_counter.get + l.countP (fun e => e.etype == 601) := by
  induction l generalizing s with
  | nil => simp
  | cons e l ih =>
    simp only [List.foldl_cons, List.countP_cons]
    rw [ih, add_get_accept]
    by_cases h : e.etype = 601 <;> simp [h] <;> omega

lemma foldl_add_connect (l : List kernel_data) (s : Events_Statics) :
    (l.foldl Events_Statics.add s).connect_counter.get =
      s.connect_counter.get + l.countP (fun e => !(e.etype == 601)) := by
  induction l generalizing s with
  | nil => simp
  | cons e l ih =>
    simp only [List.foldl_cons, List.countP_cons]
    rw [ih, add_get_connect]
    by_cases h : e.etype = 601 <;> simp [h] <;> omega

lemma countP_etype_length (l : List kernel_data) :
    l.countP (fun e => e.etype == 601) + l.countP (fun e => !(e.etype == 601)) =
      l.length := by
  induction l with
  | nil => rfl
  | cons e l ih => by_cases h : e.etype = 601 <;> simp [List.countP_cons, h] <;> omega

/-- C7: for every aggregator state, `Events_Statics.__str__` renders the
fixed-header block showing the total (sum of the two counters), then the
accept count, then the connect count, in that order — despite the swapped
local variable names in the source. -/
theorem C7_summary_block (s : Events_Statics) :
    Events_Statics.toStr s =
      "===== Events count =====\ntot: " ++
        toString (s.accept_counter.get + s.connect_counter.get) ++
      " \naccpt: " ++ toString s.accept_counter.get ++
      " \nconn: " ++ toString s.connect_counter.get := rfl

/-- C10: every `add` call bumps exactly one counter by one — the accept
counter when etype is 601 and the connect counter for every other etype —
neither counter decreases, and after folding any list of events the sum of
the counters grows by exactly the list length. -/
theorem C10_add_increments_exactly_one (s : Events_Statics) (e : kernel_data)
    (l : List kernel_data) :
    ((s.add e).accept_counter.get + (s.add e).connect_counter.get =
        s.accept_counter.get + s.connect_counter.get + 1) ∧
    ((s.add e).accept_counter.get =
        s.accept_counter.get + if e.etype = 601 then 1 else 0) ∧
    ((s.add e).connect_counter.get =
        s.connect_counter.get + if e.etype = 601 then 0 else 1) ∧
    (s.accept_counter.get ≤ (s.add e).accept_counter.get) ∧
    (s.connect_counter.get ≤ (s.add e).connect_counter.get) ∧
    ((l.foldl Events_Statics.add s).accept_counter.get +
        (l.foldl Events_Statics.add s).connect_counter.get =
      s.accept_counter.get + s.connect_counter.get + l.length) := by
  refine ⟨?_, add_get_accept s e, add_get_connect s e, ?_, ?_, ?_⟩
  · rw [add_get_accept, add_get_connect]
    by_cases h : e.etype = 601 <;> simp [h] <;> omega
  · rw [add_get_accept]; omega
  · rw [add_get_connect]; omega
  · rw [foldl_add_accept, foldl_add_connect]
    have := countP_etype_length l
    omega

/-- C5: starting from the fresh aggregator, after adding a list of events
each of kind 601 or 602, the accept counter holds the number of 601 events,
the connect counter holds the number of 602 events, and their sum is the
number of events. -/
theorem C5_counts_by_kind (l : List kernel_data)
    (h : ∀ e ∈ l, e.etype = 601 ∨ e.etype = 602) :
    ((l.foldl Events_Statics.add Events_Statics.mkInit).accept_counter.get =
        l.countP (fun e => e.etype == 601)) ∧
    ((l.foldl Events_Statics.add Events_Statics.mkInit).connect_counter.get =
        l.countP (fun e => e.etype == 602)) ∧
    ((l.foldl Events_Statics.add Events_Statics.mkInit).accept_counter.get +
        (l.foldl Events_Statics.add Events_Statics.mkInit).connect_counter.get =
      l.length) := by
  have hc : l.countP (fun e => !(e.etype == 601)) =
      l.countP (fun e => e.etype == 602) := by
    refine List.countP_congr ?_
    intro e he
    rcases h e he with h1 | h1 <;> simp [h1]
  refine ⟨?_, ?_, ?_⟩
  · rw [foldl_add_accept]
    simp [Events_Statics.mkInit, AtomicInteger.get]
  · rw [foldl_add_connect, hc]
    simp [Events_Statics.mkInit, AtomicInteger.get]
  · rw [foldl_add_accept, foldl_add_connect]
    have := countP_etype_length l
    simp [Events_Statics.mkInit, AtomicInteger.get]
    omega

/-- C5 witness: three concrete events, one accept and two connects. -/
theorem C5_counts_by_kind_witness :
    ((([zeroEvent 601, zeroEvent 602, zeroEvent 602]).foldl Events_Statics.add
        Events_Statics.mkInit).accept_counter.get =
      ([zeroEvent 601, zeroEvent 602, zeroEvent 602]).countP
        (fun e => e.etype == 601)) ∧
    ((([zeroEvent 601, zeroEvent 602, zeroEvent 602]).foldl Events_Statics.add
        Events_Statics.mkInit).connect_counter.get =
      ([zeroEvent 601, zeroEvent 602, zeroEvent 602]).countP
        (fun e => e.etype == 602)) ∧
    ((([zeroEvent 601, zeroEvent 602, zeroEvent 602]).foldl Events_Statics.add
        Events_Statics.mkInit).accept_counter.get +
      (([zeroEvent 601, zeroEvent 602, zeroEvent 602]).foldl Events_Statics.add
        Events_Statics.mkInit).connect_counter.get =
      ([zeroEvent 601, zeroEvent 602, zeroEvent 602]).length) :=
  C5_counts_by_kind [zeroEvent 601, zeroEvent 602, zeroEvent 602] (by decide)

set_option maxRecDepth 10000 in
/-- C1: a 216-byte record whose local-port bytes carry port 8080 in network
byte order decodes to the raw field value 36895, and the rendered network
line shows that raw value — the ports are never passed through `ntohs`
(imported but unused in the source), so the line does not show 8080. -/
theorem C1_port_rendered_raw :
    b8080.length = sizeof_kernel_data ∧
    31 * 256 + 144 = 8080 ∧
    (cast_kernel_data b8080).net4.loc_port = 36895 ∧
    (cast_kernel_data b8080).netLine =
      some "netinfo: [TCP/ACC][IPv4][192.168.1.10:36895 <-> 0.0.0.0:0]" := by
  refine ⟨by decide, by decide, by decide, by decide⟩

set_option maxRecDepth 10000 in
/-- C3 counterexample: a 216-byte record whose etype bytes encode 600 (outside
{601, 602}) is not dropped by the handler — `print_ipv4_event` aggregates it
into the connect counter before `str(event)` fails, so "the record is dropped
(not aggregated)" is false on the code. -/
theorem C3_counterexample :
    b600.length = sizeof_kernel_data ∧
    (cast_kernel_data b600).etype = 600 ∧
    (print_ipv4_event false Events_Statics.mkInit 0 b600 216).1 ≠
      Events_Statics.mkInit ∧
    (print_ipv4_event false Events_Statics.mkInit 0 b600 216).1.connect_counter.get
      = 1 := by
  refine ⟨by decide, by decide, by decide, by decide⟩

/-- C3 amended: for every event whose etype is outside {601, 602}, the handler
path aggregates the record into the connect counter (no UnknownEventKind error
value exists), `etype2str` fails with a missing-key lookup (`none`, a raised
`KeyError` in Python), and `__str__` therefore produces no output; the
exception is reported and swallowed at the ctypes callback boundary, so the
poll loop itself keeps running. -/
theorem C3_unknown_etype_counted_then_raises (s : Events_Statics)
    (e : kernel_data) (no_trunc : Bool)
    (h1 : e.etype ≠ 601) (h2 : e.etype ≠ 602) :
    (s.add e).connect_counter.get = s.connect_counter.get + 1 ∧
    (s.add e).accept_counter = s.accept_counter ∧
    e.etype2str = none ∧
    e.toStr no_trunc = none := by
  refine ⟨?_, ?_, ?_, ?_⟩
  · simp [Events_Statics.add, AtomicInteger.addInt, AtomicInteger.get, h1]
  · simp [Events_Statics.add, h1]
  · simp [kernel_data.etype2str, etype_table, h1, h2]
  · simp [kernel_data.toStr, kernel_data.lineList, kernel_data.netLine,
      etype_table, h1, h2]

/-- C3 witness: the amended statement at a concrete etype-600 event. -/
theorem C3_unknown_etype_counted_then_raises_witness :
    (Events_Statics.mkInit.add (zeroEvent 600)).connect_counter.get =
      Events_Statics.mkInit.connect_counter.get + 1 ∧
    (Events_Statics.mkInit.add (zeroEvent 600)).accept_counter =
      Events_Statics.mkInit.accept_counter ∧
    (zeroEvent 600).etype2str = none ∧
    (zeroEvent 600).toStr false = none :=
  C3_unknown_etype_counted_then_raises Events_Statics.mkInit (zeroEvent 600)
    false (by decide) (by decide)

/-- C4 counterexample: the empty buffer has the wrong length (0 ≠ 216), yet
the handler does not drop it — the cast reads fields anyway and the connect
counter is incremented, so "fails with SizeMismatch and the event is dropped"
is false on the code. -/
theorem C4_counterexample :
    ([] : List Nat).length ≠ sizeof_kernel_data ∧
    (print_ipv4_event false Events_Statics.mkInit 0 [] 0).1 ≠
      Events_Statics.mkInit ∧
    (print_ipv4_event false Events_Statics.mkInit 0 [] 0).1.connect_counter.get
      = 1 := by
  refine ⟨by decide, by decide, by decide⟩

/-- C4 amended: the handler validates nothing — for every buffer and every
reported size (matching or not), `print_ipv4_event` reinterprets the buffer at
the fixed field offsets and aggregates the resulting event, bumping exactly
one counter; no SizeMismatch error value exists and no record is ever dropped
for its length. -/
theorem C4_no_size_validation (no_trunc : Bool) (s : Events_Statics)
    (cpu : Nat) (data : List Nat) (size : Nat) :
    (print_ipv4_event no_trunc s cpu data size).1 =
      s.add (cast_kernel_data data) ∧
    ((print_ipv4_event no_trunc s cpu data size).1.accept_counter.get +
        (print_ipv4_event no_trunc s cpu data size).1.connect_counter.get =
      s.accept_counter.get + s.connect_counter.get + 1) ∧
    (print_ipv4_event no_trunc s cpu data size).2 =
      (cast_kernel_data data).toStr no_trunc := by
  refine ⟨rfl, ?_, rfl⟩
  have ha := add_get_accept s (cast_kernel_data data)
  have hc := add_get_connect s (cast_kernel_data data)
  by_cases h : (cast_kernel_data data).etype = 601 <;>
    simp [h] at ha hc <;>
    simp [print_ipv4_event, ha, hc] <;> omega

/-- A container line: any string the `_lcgroup` template can produce. -/
def isContainerLine (s : String) : Prop :=
  "container: [dockerid: ".data <+: s.data

lemma prefix_head {c : Char} {ps l : List Char} (h : c :: ps <+: l) :
    l.head? = some c := by
  obtain ⟨t, rfl⟩ := h
  rfl

lemma not_containerLine_of_head {s : String} {c : Char}
    (hd : s.data.head? = some c) (hc : c ≠ 'c') : ¬ isContainerLine s := by
  intro h
  unfold isContainerLine at h
  rw [show ("container: [dockerid: ").data = 'c' :: ("ontainer: [dockerid: ").data
    from rfl] at h
  have h2 := prefix_head h
  rw [hd] at h2
  exact hc (Option.some.inj h2)

lemma taskLine_head (e : kernel_data) : e.taskLine.data.head? = some '[' := by
  simp only [kernel_data.taskLine, String.data_append]
  rfl

lemma parentLine_head (e : kernel_data) : e.parentLine.data.head? = some 'p' := by
  simp only [kernel_data.parentLine, String.data_append]
  rfl

lemma netLineWith_head (e : kernel_data) (lbl : String) :
    (e.netLineWith lbl).data.head? = some 'n' := by
  simp only [kernel_data.netLineWith, String.data_append]
  rfl

lemma containerLine_is (e : kernel_data) (nt : Bool) :
    isContainerLine (e.containerLine nt) := by
  unfold isContainerLine kernel_data.containerLine
  simp only [String.data_append]
  rw [List.append_assoc]
  exact List.prefix_append _ _

/-- C2: whenever the event kind is renderable, a root (`"/"`) cgroup yields
exactly the three-line block with no container line among the lines, and a
non-root cgroup yields the same three lines followed by the container line. -/
theorem C2_root_cgroup_suppresses_container_line (e : kernel_data)
    (no_trunc : Bool) (lbl : String) (h : etype_table e.etype = some lbl) :
    (e.task.cgroup = "/" →
      e.lineList no_trunc = some [e.taskLine, e.parentLine, e.netLineWith lbl] ∧
      ∀ s ∈ [e.taskLine, e.parentLine, e.netLineWith lbl], ¬ isContainerLine s) ∧
    (e.task.cgroup ≠ "/" →
      e.lineList no_trunc =
        some [e.taskLine, e.parentLine, e.netLineWith lbl,
          e.containerLine no_trunc] ∧
      isContainerLine (e.containerLine no_trunc)) := by
  constructor
  · intro hr
    refine ⟨by simp [kernel_data.lineList, kernel_data.netLine, h, hr], ?_⟩
    intro s hs
    simp only [List.mem_cons, List.not_mem_nil, or_false] at hs
    rcases hs with rfl | rfl | rfl
    · exact not_containerLine_of_head (taskLine_head e) (by decide)
    · exact not_containerLine_of_head (parentLine_head e) (by decide)
    · exact not_containerLine_of_head (netLineWith_head e lbl) (by decide)
  · intro hr
    exact ⟨by simp [kernel_data.lineList, kernel_data.netLine, h, hr],
      containerLine_is e no_trunc⟩

/-- C2 witness: a concrete accept event with the root cgroup renders the
three-line block, and a concrete docker event renders four lines. -/
theorem C2_root_cgroup_suppresses_container_line_witness :
    ((zeroEvent 601).lineList false =
      some [(zeroEvent 601).taskLine, (zeroEvent 601).parentLine,
        (zeroEvent 601).netLineWith "TCP/ACC"]) ∧
    ((dockerEvent 601).lineList false =
      some [(dockerEvent 601).taskLine, (dockerEvent 601).parentLine,
        (dockerEvent 601).netLineWith "TCP/ACC",
        (dockerEvent 601).containerLine false]) :=
  ⟨((C2_root_cgroup_suppresses_container_line (zeroEvent 601) false "TCP/ACC"
      (by decide)).1 (by decide)).1,
   ((C2_root_cgroup_suppresses_container_line (dockerEvent 601) false "TCP/ACC"
      (by decide)).2 (by decide)).1⟩

/-- C6: whenever the event kind is renderable and the cgroup is not the root
sentinel, rendering with truncation disabled shows the full cgroup string,
rendering with truncation enabled shows exactly its first 12 bytes, and the
record's stored cgroup is untouched — truncation happens only in the
formatted view. -/
theorem C6_truncation_display_only (e : kernel_data) (lbl : String)
    (h : etype_table e.etype = some lbl) (hc : e.task.cgroup ≠ "/") :
    (e.lineList true =
      some [e.taskLine, e.parentLine, e.netLineWith lbl,
        "container: [dockerid: " ++ e.task.cgroup ++ "]"]) ∧
    (e.lineList false =
      some [e.taskLine, e.parentLine, e.netLineWith lbl,
        "container: [dockerid: " ++ strTake e.task.cgroup 12 ++ "]"]) ∧
    (strTake e.task.cgroup 12).data = e.task.cgroup.data.take 12 ∧
    (strTake e.task.cgroup 12).data.length ≤ 12 := by
  refine ⟨?_, ?_, rfl, ?_⟩
  · simp [kernel_data.lineList, kernel_data.netLine, kernel_data.containerLine,
      h, hc]
  · simp [kernel_data.lineList, kernel_data.netLine, kernel_data.containerLine,
      h, hc]
  · simp [strTake, List.length_take]

/-- C6 witness: the scenario record — etype 602, cgroup
"abcdef0123456789" — rendered with and without truncation. -/
theorem C6_truncation_display_only_witness :
    ((dockerEvent 602).lineList true =
      some [(dockerEvent 602).taskLine, (dockerEvent 602).parentLine,
        (dockerEvent 602).netLineWith "TCP/CONN",
        "container: [dockerid: " ++ (dockerEvent 602).task.cgroup ++ "]"]) ∧
    ((dockerEvent 602).lineList false =
      some [(dockerEvent 602).taskLine, (dockerEvent 602).parentLine,
        (dockerEvent 602).netLineWith "TCP/CONN",
        "container: [dockerid: " ++ strTake (dockerEvent 602).task.cgroup 12 ++
          "]"]) ∧
    (strTake (dockerEvent 602).task.cgroup 12).data =
      (dockerEvent 602).task.cgroup.data.take 12 ∧
    (strTake (dockerEvent 602).task.cgroup 12).data.length ≤ 12 :=
  C6_truncation_display_only (dockerEvent 602) "TCP/CONN" (by decide) (by decide)

/-- C8: for every event of a legal kind, `__str__` produces the task line
(kernel time, gid, uid, pid, command name), then the parent line (gid, uid,
pid, command name), then the network line (kind label, IPv4 tag, local
address:port, remote address:port), then — only for a non-root cgroup — the
container line, all joined with the "\n|__" continuation marker. -/
theorem C8_event_block_structure (e : kernel_data) (no_trunc : Bool)
    (h : e.etype = 601 ∨ e.etype = 602) :
    e.toStr no_trunc = some (String.intercalate "\n|__"
      (["[ktime: " ++ toString e.ktime ++ "][gid: " ++ toString e.task.gid ++
          "][uid: " ++ toString e.task.uid ++ "][pid: " ++ toString e.task.pid ++
          "][" ++ e.task.task ++ "]",
        "parent: [gid: " ++ toString e.ptask.gid ++ "][uid: " ++
          toString e.ptask.uid ++ "][pid: " ++ toString e.ptask.pid ++ "][" ++
          e.ptask.task ++ "]",
        "netinfo: [" ++ (if e.etype = 601 then "TCP/ACC" else "TCP/CONN") ++
          "][IPv4][" ++ inet_ntop_pack e.net4.saddr ++ ":" ++
          toString e.net4.loc_port ++ " <-> " ++ inet_ntop_pack e.net4.daddr ++
          ":" ++ toString e.net4.dst_port ++ "]"] ++
        (if e.task.cgroup ≠ "/" then [e.containerLine no_trunc] else []))) := by
  by_cases hc : e.task.cgroup = "/" <;>
    rcases h with h | h <;>
      simp [kernel_data.toStr, kernel_data.lineList, kernel_data.netLine,
        kernel_data.netLineWith, kernel_data.taskLine, kernel_data.parentLine,
        etype_table, h, hc]

/-- C8 witness: the block of a concrete connect event with a docker cgroup. -/
theorem C8_event_block_structure_witness :
    (dockerEvent 602).toStr true = some (String.intercalate "\n|__"
      (["[ktime: " ++ toString (dockerEvent 602).ktime ++ "][gid: " ++
          toString (dockerEvent 602).task.gid ++ "][uid: " ++
          toString (dockerEvent 602).task.uid ++ "][pid: " ++
          toString (dockerEvent 602).task.pid ++ "][" ++
          (dockerEvent 602).task.task ++ "]",
        "parent: [gid: " ++ toString (dockerEvent 602).ptask.gid ++ "][uid: " ++
          toString (dockerEvent 602).ptask.uid ++ "][pid: " ++
          toString (dockerEvent 602).ptask.pid ++ "][" ++
          (dockerEvent 602).ptask.task ++ "]",
        "netinfo: [" ++
          (if (dockerEvent 602).etype = 601 then "TCP/ACC" else "TCP/CONN") ++
          "][IPv4][" ++ inet_ntop_pack (dockerEvent 602).net4.saddr ++ ":" ++
          toString (dockerEvent 602).net4.loc_port ++ " <-> " ++
          inet_ntop_pack (dockerEvent 602).net4.daddr ++ ":" ++
          toString (dockerEvent 602).net4.dst_port ++ "]"] ++
        (if (dockerEvent 602).task.cgroup ≠ "/" then
          [(dockerEvent 602).containerLine true] else []))) :=
  C8_event_block_structure (dockerEvent 602) true (by decide)

lemma isPrefixOf_eq (l m : List Char) : l.isPrefixOf m = true ↔ l <+: m :=
  List.isPrefixOf_iff_prefix

lemma subOfPre {l m : List Char} (h : l <+: m) : l <:+: m := by
  obtain ⟨t, rfl⟩ := h
  exact ⟨[], t, rfl⟩

lemma subOfTail {l : List Char} {c : Char} {rest : List Char}
    (h : l <:+: rest) : l <:+: c :: rest := by
  obtain ⟨s, t, rfl⟩ := h
  exact ⟨c :: s, t, rfl⟩

lemma replaceList_no_occur (pat repl b : List Char) (hb : ¬ pat <:+: b) :
    replaceList pat repl b = b := by
  induction b with
  | nil => rw [replaceList]
  | cons c rest ih =>
    have hcond : ¬ (pat ≠ [] ∧ pat.isPrefixOf (c :: rest) = true) := by
      rintro ⟨-, hp⟩
      exact hb (subOfPre ((isPrefixOf_eq _ _).mp hp))
    rw [replaceList, dif_neg hcond]
    have hrest : ¬ pat <:+: rest := fun hi => hb (subOfTail hi)
    rw [ih hrest]

lemma replaceList_first_occur (pat repl a b : List Char)
    (ha : ∀ i < a.length, ¬ pat <+: (a ++ (pat ++ b)).drop i)
    (hb : ¬ pat <:+: b) :
    replaceList pat repl (a ++ (pat ++ b)) = a ++ (repl ++ b) := by
  have hne : pat ≠ [] := by
    intro h
    exact hb (h ▸ ⟨[], b, by simp⟩)
  induction a with
  | nil =>
    simp only [List.nil_append]
    obtain ⟨p, ps, rfl⟩ : ∃ p ps, pat = p :: ps := by
      cases pat with
      | nil => exact absurd rfl hne
      | cons p ps => exact ⟨p, ps, rfl⟩
    rw [show (p :: ps) ++ b = p :: (ps ++ b) from rfl]
    rw [replaceList, dif_pos ⟨hne, (isPrefixOf_eq _ _).mpr
      (by rw [show p :: (ps ++ b) = (p :: ps) ++ b from rfl]
          exact List.prefix_append _ _)⟩]
    rw [show (p :: (ps ++ b)).drop (p :: ps).length = ((p :: ps) ++ b).drop
      (p :: ps).length from rfl]
    rw [List.drop_left]
    rw [replaceList_no_occur _ _ _ hb]
  | cons c a ih =>
    have h0 : ¬ (pat ≠ [] ∧ pat.isPrefixOf (c :: (a ++ (pat ++ b))) = true) := by
      rintro ⟨-, hp⟩
      exact ha 0 (by simp) (by simpa using (isPrefixOf_eq _ _).mp hp)
    rw [show (c :: a) ++ (pat ++ b) = c :: (a ++ (pat ++ b)) from rfl]
    rw [replaceList, dif_neg h0]
    rw [ih (fun i hi => by
      have := ha (i + 1) (by simpa using Nat.succ_lt_succ hi)
      simpa using this)]
    rfl

/-- C9: for every program text in which the token FLTR_TASK occurs exactly
once (no occurrence before it or after it), substituting with no task filter
replaces the token with the empty string, substituting with a task filter
replaces it with the generated equality-comparison snippet (which mentions
the task name), and the surrounding text is unchanged. -/
theorem C9_filter_substitution (a b : List Char) (t : String)
    (ha : ∀ i < a.length,
      ¬ "FLTR_TASK".data <+: (a ++ ("FLTR_TASK".data ++ b)).drop i)
    (hb : ¬ "FLTR_TASK".data <:+: b) :
    readebpfSubst ⟨a ++ ("FLTR_TASK".data ++ b)⟩ none = ⟨a ++ ([] ++ b)⟩ ∧
    readebpfSubst ⟨a ++ ("FLTR_TASK".data ++ b)⟩ (some t) =
      ⟨a ++ ((fltrOf (some t)).data ++ b)⟩ ∧
    fltrOf none = "" ∧
    t.data <:+: (fltrOf (some t)).data := by
  refine ⟨?_, ?_, rfl, ?_⟩
  · show (⟨replaceList "FLTR_TASK".data (fltrOf none).data
      (a ++ ("FLTR_TASK".data ++ b))⟩ : String) = _
    rw [show (fltrOf none).data = [] from rfl]
    rw [replaceList_first_occur _ _ a b ha hb]
  · show (⟨replaceList "FLTR_TASK".data (fltrOf (some t)).data
      (a ++ ("FLTR_TASK".data ++ b))⟩ : String) = _
    rw [replaceList_first_occur _ _ a b ha hb]
  · refine ⟨"if(ebpf_strcmp(event_data.task.task, \"".data, "\") == 0)".data, ?_⟩
    show _ = (("if(ebpf_strcmp(event_data.task.task, \"" ++ t) ++ "\") == 0)").data
    simp [String.data_append]

/-- C9 witness: a tiny program text holding the token once, with and without
a task filter. -/
theorem C9_filter_substitution_witness :
    readebpfSubst ⟨"A ".data ++ ("FLTR_TASK".data ++ " B".data)⟩ none =
      ⟨"A ".data ++ ([] ++ " B".data)⟩ ∧
    readebpfSubst ⟨"A ".data ++ ("FLTR_TASK".data ++ " B".data)⟩ (some "nginx") =
      ⟨"A ".data ++ ((fltrOf (some "nginx")).data ++ " B".data)⟩ ∧
    fltrOf none = "" ∧
    "nginx".data <:+: (fltrOf (some "nginx")).data :=
  C9_filter_substitution "A ".data " B".data "nginx" (by decide) (by decide)
